import Mathlib

/-!
# Verification of the geo-linked-open-data knowledge-graph pipeline

Shallow embedding of the pipeline's core record types and algorithms, translated
from the Python sources:

* `src/scripts/linkers/link_wikidata_places_global.py` (global geographic linker)
* `src/scripts/linkers/link_spatial_optimized.py` (optimized spatial linker)
* `src/link_direct_geonames_ids.py` (Phase A direct-ID linker)
* `src/scripts/linkers/create_admin_hierarchies_robust.py` (admin hierarchy builder)
* `src/scripts/linkers/add_admin3_links.py` (ADMIN3 supplement linker)
* `src/load_global_geonames.py` (gazetteer reader)
* `src/scripts/parsers/filter_wikidata_full_dump.py` (Wikidata streaming filter)
* `src/load_wikidata_entities_fixed.py` (entity store writer)

Python floats are modelled as rationals; `None`-able values as `Option`;
Cypher's three-valued null semantics on property comparisons as explicit
`Option` matching.
-/

namespace GeoKG

/-! ## Generic helpers: Python semantics -/

/-- Python `round(x, 3)` helper: round a rational to the nearest integer with
ties going to the even integer (banker's rounding, as Python's `round`). -/
def pyRoundHalfEven (x : ℚ) : ℤ :=
  let f := ⌊x⌋
  let r := x - (f : ℚ)
  if r < 1/2 then f
  else if 1/2 < r then f + 1
  else if f % 2 = 0 then f else f + 1

/-- Python `round(x, 3)`: round to 3 decimal places, ties to even. -/
def pyRound3 (x : ℚ) : ℚ := (pyRoundHalfEven (x * 1000) : ℚ) / 1000

/-- Python `a in b` on strings: `needle` occurs contiguously in `hay`.
`matchesAt n h` checks that `n` is an initial segment of `h`. -/
def matchesAt : List Char → List Char → Bool
  | [], _ => true
  | _ :: _, [] => false
  | a :: as, b :: bs => a == b && matchesAt as bs

/-- Substring occurrence on character lists (Python `in` for `str`). -/
def containsSub : List Char → List Char → Bool
  | n, [] => matchesAt n []
  | n, h :: t => matchesAt n (h :: t) || containsSub n t

/-- Python `needle in hay` for strings. -/
def pyInStr (needle hay : String) : Bool := containsSub needle.data hay.data

/-- Python `s.lower()` (ASCII, as the data at hand). -/
def pyToLower (s : String) : String := ⟨s.data.map Char.toLower⟩

/-- Python `s.upper()` (ASCII, as the data at hand). -/
def pyToUpper (s : String) : String := ⟨s.data.map Char.toUpper⟩

/-- Python `s.startswith(pre)`. -/
def strStarts (s pre : String) : Bool := matchesAt pre.data s.data

/-- Split a character list on a separator character (Python `s.split(c)`). -/
def splitOnCharAux (c : Char) : List Char → List Char → List (List Char)
  | [], acc => [acc.reverse]
  | a :: rest, acc =>
      if a = c then acc.reverse :: splitOnCharAux c rest []
      else splitOnCharAux c rest (a :: acc)

/-- Python `s.split(c)` for a single-character separator. -/
def pySplitChar (s : String) (c : Char) : List String :=
  (splitOnCharAux c s.data []).map (fun l => ⟨l⟩)

/-- Python `s.strip()`: drop leading and trailing whitespace. -/
def pyStrip (s : String) : String :=
  ⟨((s.data.dropWhile Char.isWhitespace).reverse.dropWhile Char.isWhitespace).reverse⟩

/-- Split a character list at whitespace, keeping the (possibly empty) chunks. -/
def splitWsAux : List Char → List Char → List (List Char)
  | [], acc => [acc.reverse]
  | a :: rest, acc =>
      if a.isWhitespace then acc.reverse :: splitWsAux rest []
      else splitWsAux rest (a :: acc)

/-- Python `s.split()`: split on whitespace runs, dropping empty tokens. -/
def pySplitWs (s : String) : List String :=
  ((splitWsAux s.data []).map (fun l => (⟨l⟩ : String))).filter (· ≠ "")

/-- Cypher `x.prop <> 'v'` under three-valued logic: null properties fail the test. -/
def cypherNeq (o : Option String) (v : String) : Bool :=
  match o with
  | some x => x != v
  | none => false

/-- Cypher property equality `a.prop = b.prop`: null on either side never matches. -/
def cypherEqOpt (a b : Option String) : Bool :=
  match a, b with
  | some x, some y => x == y
  | _, _ => false

/-! ## Entity store writer: coordinate sanity fix
(`src/load_wikidata_entities_fixed.py`, `_load_geo_batch`, lines 250-277) -/

/-- Outcome of coordinate validation for one WikidataPlace record. -/
inductive CoordOutcome where
  | missing
  | valid (lat lon : ℚ)
  | fixedSwapped (lat lon : ℚ)
  | invalid
  deriving DecidableEq, Repr

/-- `_load_geo_batch` coordinate validation: records with in-range coordinates
pass unchanged; a lat/lon pair that only fits with the axes exchanged is
swapped; any other pair is dropped; missing coordinates are skipped. -/
def validateCoords (lat lon : Option ℚ) : CoordOutcome :=
  match lat, lon with
  | some la, some lo =>
      if -90 ≤ la ∧ la ≤ 90 ∧ -180 ≤ lo ∧ lo ≤ 180 then .valid la lo
      else if -90 ≤ lo ∧ lo ≤ 90 ∧ -180 ≤ la ∧ la ≤ 180 then .fixedSwapped lo la
      else .invalid
  | _, _ => .missing

/-! ## Admin hierarchy builder: progress state and restart worklist
(`src/scripts/linkers/create_admin_hierarchies_robust.py`) -/

/-- One entry of the `failed_countries` list in the progress file. -/
structure FailedEntry where
  country : String
  error : String
  deriving DecidableEq, Repr

/-- The JSON progress file state (`load_state`). -/
structure ProgressState where
  completed_countries : List String
  failed_countries : List FailedEntry
  deriving DecidableEq, Repr

/-- `AdminHierarchyBuilder.get_country_list`: the stored country list with the
completed set removed.  The failed set is not consulted. -/
def getCountryList (state : ProgressState) (countries : List String) : List String :=
  countries.filter (fun c => !(state.completed_countries.contains c))

/-! ## Gazetteer reader (`src/load_global_geonames.py`, `parse_geonames_row`)

The tab-separated row is modelled after the field coercions the Python code
performs: `float(...)` / `int(...)` results are `Option` values (`none` when the
string was missing or unparseable, mirroring `ValueError` / `KeyError`). -/

/-- One raw GeoNames row, with numeric fields as parse results. -/
structure GeoRow where
  geonameid : Option ℤ
  name : String
  asciiname : String
  alternatenames : String
  latitude : Option ℚ
  longitude : Option ℚ
  feature_class : String
  feature_code : String
  country_code : String
  admin1_code : String
  admin2_code : String
  admin3_code : String
  admin4_code : String
  population : Option ℤ
  elevation : Option ℤ
  timezone : String
  modification_date : String
  deriving DecidableEq, Repr

/-- The emitted Place record of `parse_geonames_row`. -/
structure PlaceRec where
  geonameId : ℤ
  name : String
  asciiName : String
  alternateNames : List String
  latitude : ℚ
  longitude : ℚ
  featureClass : String
  featureCode : String
  fullFeatureCode : String
  countryCode : String
  admin1Code : String
  admin2Code : String
  admin3Code : String
  admin4Code : String
  population : ℤ
  elevation : ℤ
  timezone : String
  modifiedDate : String
  deriving DecidableEq, Repr

/-- `parse_geonames_row`: split alternate names on `,` trimming and dropping
empty tokens; default unparseable population/elevation to 0; return `none`
(discard the row) when latitude or longitude is missing or unparseable, or when
the id fails to parse; otherwise emit the record with the coordinates as
parsed.  (The source performs no range validation on the coordinates.) -/
def parse_geonames_row (row : GeoRow) : Option PlaceRec :=
  let alt_names := ((pySplitChar row.alternatenames ',').map pyStrip).filter (· ≠ "")
  let population := row.population.getD 0
  let elevation := row.elevation.getD 0
  match row.geonameid, row.latitude, row.longitude with
  | some gid, some lat, some lon =>
      some
        { geonameId := gid
          name := row.name
          asciiName := row.asciiname
          alternateNames := alt_names
          latitude := lat
          longitude := lon
          featureClass := row.feature_class
          featureCode := row.feature_code
          fullFeatureCode := row.feature_class ++ "." ++ row.feature_code
          countryCode := row.country_code
          admin1Code := row.admin1_code
          admin2Code := row.admin2_code
          admin3Code := row.admin3_code
          admin4Code := row.admin4_code
          population := population
          elevation := elevation
          timezone := row.timezone
          modifiedDate := row.modification_date }
  | _, _, _ => none

/-- `load_allcountries_file` per-file bookkeeping: the list of emitted records
together with the count of rows discarded by the parser. -/
def loadRows (rows : List GeoRow) : List PlaceRec × ℕ :=
  (rows.filterMap parse_geonames_row, rows.countP (fun r => (parse_geonames_row r).isNone))

/-! ## Spatial resolver data model
(`link_wikidata_places_global.py`, `link_spatial_optimized.py`) -/

/-- A WikidataPlace row as fetched by the linkers (qid, name, coordinates,
instance-of QID); `name` can be null in the store. -/
structure WdPlace where
  qid : String
  name : Option String
  instanceType : Option String
  deriving DecidableEq, Repr

/-- A GeoNames candidate row as returned by the nearby-place queries, carrying
its computed distance in km. -/
structure GnCand where
  geonameId : ℤ
  name : Option String
  featureClass : Option String
  featureCode : Option String
  distance_km : ℚ
  deriving DecidableEq, Repr

/-- `WikidataPlaceLinker.get_entity_priority` with `is_wikidata=True`:
the source always scores 70. -/
def getEntityPriorityWd (_wp : WdPlace) : ℕ := 70

/-- `WikidataPlaceLinker.get_entity_priority` with `is_wikidata=False`:
priority from the GeoNames feature code (uppercased, null treated as ""). -/
def getEntityPriorityGn (gn : GnCand) : ℕ :=
  let feature_code := pyToUpper (gn.featureCode.getD "")
  if strStarts feature_code "ADM" then 85
  else if strStarts feature_code "PPLA" then 80
  else if feature_code = "PPL" then 70
  else if feature_code = "AREA" then 75
  else if feature_code = "PPLX" then 40
  else 50

/-- Word set of a lowercased name (Python `set(name.split())`). -/
def wordSet (s : String) : Finset String := (pySplitWs s).toFinset

/-- `WikidataPlaceLinker.calculate_confidence`
(`link_wikidata_places_global.py` lines 224-281): weighted combination of a
stepwise distance score, a name-similarity score and an entity-type score,
capped at 1. -/
def calculate_confidence (wp : WdPlace) (gn : GnCand) (distance_km : ℚ) : ℚ :=
  let distance_score : ℚ :=
    if distance_km ≤ 1/10 then 1
    else if distance_km ≤ 1 then 9/10
    else if distance_km ≤ 5 then 7/10
    else if distance_km ≤ 10 then 1/2
    else 3/10
  let wd_name := pyToLower (wp.name.getD "")
  let gn_name := pyToLower (gn.name.getD "")
  let name_score : ℚ :=
    if wd_name = gn_name then 1
    else if pyInStr wd_name gn_name || pyInStr gn_name wd_name then 4/5
    else
      let wd_words := wordSet wd_name
      let gn_words := wordSet gn_name
      let overlap := (wd_words ∩ gn_words).card
      if 0 < overlap then
        1/2 * ((overlap : ℚ) / (max wd_words.card gn_words.card : ℕ))
      else 0
  let wd_priority := getEntityPriorityWd wp
  let gn_priority := getEntityPriorityGn gn
  let type_score : ℚ := (((wd_priority : ℚ) + gn_priority) / 2) / 100
  let type_score := if 70 ≤ wd_priority ∧ 70 ≤ gn_priority then min (type_score * (6/5)) 1 else type_score
  let confidence := distance_score * (3/10) + name_score * (1/2) + type_score * (1/5)
  min confidence 1

/-- `OptimizedSpatialLinker.calculate_confidence`
(`link_spatial_optimized.py` lines 123-166): as the global formula but with the
entity-type component fixed at 0.7. -/
def calcConfidenceOptimized (wp : WdPlace) (gn : GnCand) (distance_km : ℚ) : ℚ :=
  let distance_score : ℚ :=
    if distance_km ≤ 1/10 then 1
    else if distance_km ≤ 1 then 9/10
    else if distance_km ≤ 5 then 7/10
    else if distance_km ≤ 10 then 1/2
    else 3/10
  let wd_name := pyToLower (wp.name.getD "")
  let gn_name := pyToLower (gn.name.getD "")
  let name_score : ℚ :=
    if wd_name = gn_name then 1
    else if pyInStr wd_name gn_name || pyInStr gn_name wd_name then 4/5
    else
      let wd_words := wordSet wd_name
      let gn_words := wordSet gn_name
      let overlap := (wd_words ∩ gn_words).card
      if 0 < overlap then
        1/2 * ((overlap : ℚ) / (max wd_words.card gn_words.card : ℕ))
      else 0
  let type_score : ℚ := 7/10
  let confidence := distance_score * (3/10) + name_score * (1/2) + type_score * (1/5)
  min confidence 1

/-- A link record accumulated in `links_batch` before the database write. -/
structure LinkRec where
  wikidataQid : String
  geonameId : ℤ
  distance_km : ℚ
  confidence : ℚ
  matchMethod : String
  relType : String
  deriving DecidableEq, Repr

/-- Relationship-type selection of the global geographic linker
(`link_wikidata_places_global.py` lines 332-340): the `LOCATED_IN` predicate is
tested first, then `SAME_AS`, else `NEAR`. -/
def selectRelTypeGlobal (wd_priority gn_priority : ℕ) (confidence distance_km : ℚ) : String :=
  if wd_priority < 60 ∧ 60 ≤ gn_priority ∧ distance_km ≤ 5 then "LOCATED_IN"
  else if 17/20 ≤ confidence ∧ distance_km ≤ 1 then "SAME_AS"
  else "NEAR"

/-- Relationship-type selection of the optimized spatial linker
(`link_spatial_optimized.py` lines 250-255): `SAME_AS` when confident and
close, `NEAR` when within 5 km, otherwise `LOCATED_IN`. -/
def selectRelTypeOptimized (confidence distance_km : ℚ) : String :=
  if 17/20 ≤ confidence ∧ distance_km ≤ 1 then "SAME_AS"
  else if distance_km ≤ 5 then "NEAR"
  else "LOCATED_IN"

/-- Per-source candidate loop of
`WikidataPlaceLinker.link_by_geography_for_country` (lines 320-349): each
nearby candidate scoring at least `min_confidence` yields one link record,
typed by `selectRelTypeGlobal` and stamped `matchMethod = "geographic_proximity"`,
with distance and confidence rounded to 3 decimals. -/
def processNearbyGlobal (wd_place : WdPlace) (nearby : List GnCand)
    (min_confidence : ℚ) : List LinkRec :=
  nearby.filterMap fun gn_place =>
    let confidence := calculate_confidence wd_place gn_place gn_place.distance_km
    if min_confidence ≤ confidence then
      let wd_priority := getEntityPriorityWd wd_place
      let gn_priority := getEntityPriorityGn gn_place
      some
        { wikidataQid := wd_place.qid
          geonameId := gn_place.geonameId
          distance_km := pyRound3 gn_place.distance_km
          confidence := pyRound3 confidence
          matchMethod := "geographic_proximity"
          relType := selectRelTypeGlobal wd_priority gn_priority confidence gn_place.distance_km }
    else none

/-- Per-source step of `OptimizedSpatialLinker.link_country_batch`
(lines 232-263): score only the first (nearest) candidate; emit one link record
when it reaches `min_confidence`, and nothing otherwise.  The optimized batch
dict carries no match-method field (the write query hardcodes the evidence), so
`matchMethod` is left empty here. -/
def processSourceOptimized (wp : WdPlace) (nearby : List GnCand)
    (min_confidence : ℚ) : Option LinkRec :=
  match nearby with
  | [] => none
  | best_match :: _ =>
      let confidence := calcConfidenceOptimized wp best_match best_match.distance_km
      if min_confidence ≤ confidence then
        some
          { wikidataQid := wp.qid
            geonameId := best_match.geonameId
            distance_km := pyRound3 best_match.distance_km
            confidence := pyRound3 confidence
            matchMethod := ""
            relType := selectRelTypeOptimized confidence best_match.distance_km }
      else none

/-- One batch of `OptimizedSpatialLinker.link_country_batch`: each fetched
source, paired with its sorted nearby-candidate list, contributes at most one
record. -/
def linkCountryBatchOptimized (places : List (WdPlace × List GnCand))
    (min_confidence : ℚ) : List LinkRec :=
  places.filterMap fun p => processSourceOptimized p.1 p.2 min_confidence

/-- A resolver-produced edge as written to the store. -/
structure Edge where
  src : String
  tgtGeonameId : ℤ
  relType : String
  confidence : ℚ
  distance_km : ℚ
  evidence : String
  deriving DecidableEq, Repr

/-- `OptimizedSpatialLinker.create_links_batch` (lines 168-216): every edge is
written with `evidence`/`matchMethod` `'spatial_proximity'`. -/
def createLinksBatchOptimized (links : List LinkRec) : List Edge :=
  links.map fun l =>
    { src := l.wikidataQid
      tgtGeonameId := l.geonameId
      relType := l.relType
      confidence := l.confidence
      distance_km := l.distance_km
      evidence := "spatial_proximity" }

/-- `WikidataPlaceLinker._create_links_batch` (lines 364-409): `SAME_AS` edges
get `evidence = link.matchMethod`; `NEAR`/`LOCATED_IN` edges store the method
under the `matchMethod` property (modelled in the same field). -/
def createLinksBatchGlobal (links : List LinkRec) : List Edge :=
  links.map fun l =>
    { src := l.wikidataQid
      tgtGeonameId := l.geonameId
      relType := l.relType
      confidence := l.confidence
      distance_km := l.distance_km
      evidence := l.matchMethod }

/-! ## Phase A: direct GeoNames-id linking
(`src/link_direct_geonames_ids.py`, `link_by_direct_id_match`) -/

/-- A WikidataPlace node as Phase A sees it: its optional string `geonamesId`
property and whether it already has an outgoing `SAME_AS` edge. -/
structure WpNode where
  qid : String
  geonamesId : Option String
  hasSameAs : Bool
  deriving DecidableEq, Repr

/-- A Place node: its integer `geonameId` key. -/
structure PlaceNode where
  geonameId : ℤ
  deriving DecidableEq, Repr

/-- Value of an unsigned decimal digit string (`none` if empty or non-digits). -/
def digitsVal (cs : List Char) : Option ℕ :=
  if cs = [] then none
  else
    cs.foldl
      (fun acc c =>
        match acc with
        | none => none
        | some n => if c.isDigit then some (n * 10 + (c.toNat - 48)) else none)
      (some 0)

/-- Cypher `toInteger` restricted to integer strings: parse an optional `-`
sign followed by decimal digits, `none` (null) otherwise. -/
def toIntegerStr (s : String) : Option ℤ :=
  match s.data with
  | '-' :: rest => (digitsVal rest).map (fun n => -(n : ℤ))
  | cs => (digitsVal cs).map (fun n => (n : ℤ))

/-- Default batch size of `DirectIDLinker.link_by_direct_id_match`. -/
def directIdBatchSize : ℕ := 50000

/-- `DirectIDLinker.link_by_direct_id_match` (lines 54-71): for every
WikidataPlace whose `geonamesId` is non-null and that has no outgoing
`SAME_AS`, merge a `SAME_AS` edge to every Place whose integer `geonameId`
equals `toInteger(wp.geonamesId)` (a null coercion result matches nothing),
with evidence `'geonames_id_match'`, confidence 1.0 and distance 0.0. -/
def directIdEdges (wps : List WpNode) (places : List PlaceNode) : List Edge :=
  wps.flatMap fun wp =>
    match wp.geonamesId, wp.hasSameAs with
    | some s, false =>
        match toIntegerStr s with
        | some n =>
            (places.filter (fun p => p.geonameId = n)).map fun p =>
              { src := wp.qid
                tgtGeonameId := p.geonameId
                relType := "SAME_AS"
                confidence := 1
                distance_km := 0
                evidence := "geonames_id_match" }
        | none => []
    | _, _ => []

/-! ## Spec-side confidence formula (refinement comparison for C3)

The following definitions follow the specification's words (§4.6.3 and the
entity-priority tables of §4.6.4), to be compared against
`calculate_confidence` above.  For table entries the spec gives as a range
(e.g. "ADM1..ADM4, AREA → 75-95") a representative value inside the range is
chosen; the comparison theorems only touch entries the spec pins down exactly. -/

/-- Spec §4.6.4 GeoNames priority table (ranged entries take a representative
in-range value; exact entries as written). -/
def specPriorityGeoNames (featureClass featureCode : String) : ℕ :=
  if featureCode ∈ ["ADM1", "ADM2", "ADM3", "ADM4", "AREA"] then 85
  else if featureCode = "PPLC" then 95
  else if featureCode ∈ ["PPLA", "PPLA2", "PPLA3", "PPLA4"] then 80
  else if featureCode = "PPL" then 70
  else if featureCode = "PPLL" then 65
  else if featureCode = "PPLH" then 60
  else if featureCode = "PPLQ" then 55
  else if featureCode = "PPLX" then 40
  else if featureCode ∈ ["CH", "SCH", "BLDG", "MUS", "MNMT", "HTL"] then 12
  else if featureClass = "A" then 60
  else if featureClass = "P" then 50
  else if featureClass = "L" then 55
  else 30

/-- Spec §4.6.4 WikidataPlace priority table: case-insensitive substring match
on the instance-of label, in the listed order (buildings and similar points of
interest take a representative value in the stated 10-20 range). -/
def specPriorityWikidata (instanceLabel : String) : ℕ :=
  let l := pyToLower instanceLabel
  if pyInStr "country" l then 100
  else if pyInStr "province" l || pyInStr "state" l then 95
  else if pyInStr "county" l then 90
  else if pyInStr "township" l then 85
  else if pyInStr "municipality" l then 80
  else if pyInStr "city" l then 75
  else if pyInStr "town" l then 70
  else if pyInStr "village" l then 65
  else if pyInStr "hamlet" l || pyInStr "settlement" l then 60
  else if pyInStr "neighbourhood" l || pyInStr "district" l then 40
  else if pyInStr "building" l || pyInStr "landmark" l || pyInStr "tower" l ||
          pyInStr "monument" l || pyInStr "park" l || pyInStr "cemetery" l ||
          pyInStr "school" l || pyInStr "hospital" l then 15
  else 30

/-- Claim-side distance component: the stepwise decay of §4.6.3. -/
def distComponentClaim (d : ℚ) : ℚ :=
  if d ≤ 1/10 then 1
  else if d ≤ 1 then 9/10
  else if d ≤ 5 then 7/10
  else if d ≤ 10 then 1/2
  else 3/10

/-- Claim-side name component: exact lowercased equality 1.0, substring 0.8,
else half the word-set overlap over the larger word count (0 when disjoint). -/
def nameComponentClaim (wd_name gn_name : String) : ℚ :=
  if wd_name = gn_name then 1
  else if pyInStr wd_name gn_name || pyInStr gn_name wd_name then 4/5
  else
    let o := (wordSet wd_name ∩ wordSet gn_name).card
    if 0 < o then 1/2 * ((o : ℚ) / (max (wordSet wd_name).card (wordSet gn_name).card : ℕ))
    else 0

/-- Claim-side type component from two priorities: average over 100, boosted by
1.2 and clamped to 1 when both priorities reach 70. -/
def typeComponentOfPriorities (pW pG : ℕ) : ℚ :=
  let t : ℚ := (((pW : ℚ) + pG) / 2) / 100
  if 70 ≤ pW ∧ 70 ≤ pG then min (t * (6/5)) 1 else t

/-- Type component as `calculate_confidence` actually computes it (source
priority constant 70, target priority from `getEntityPriorityGn`). -/
def typeComponentCode (wp : WdPlace) (gn : GnCand) : ℚ :=
  typeComponentOfPriorities (getEntityPriorityWd wp) (getEntityPriorityGn gn)

/-- The confidence formula exactly as claim C3 words it: weighted sum of the
three components with the §4.6.4 priority tables, clamped to [0, 1]. -/
def claimedConfidenceSpec464 (instanceLabel wdName gnName featureClass featureCode : String)
    (d : ℚ) : ℚ :=
  let t := typeComponentOfPriorities (specPriorityWikidata instanceLabel)
    (specPriorityGeoNames featureClass featureCode)
  max 0 (min 1 ((3/10) * distComponentClaim d
    + (1/2) * nameComponentClaim (pyToLower wdName) (pyToLower gnName) + (1/5) * t))

/-! ## Admin hierarchy builder: edge materialisation
(`create_admin_hierarchies_robust.py` and `add_admin3_links.py`)

Store nodes are modelled with `Option String` properties (null-able in the
graph); Cypher's null semantics are made explicit via `cypherEqOpt`/`cypherNeq`. -/

/-- A persisted Place node as the builder queries it. -/
structure GPlace where
  geonameId : ℤ
  countryCode : Option String
  featureClass : Option String
  featureCode : Option String
  admin1Code : Option String
  admin2Code : Option String
  admin3Code : Option String
  admin4Code : Option String
  deriving DecidableEq, Repr

/-- An AdminDivision node (same code tuple, materialised from a Place). -/
structure AdminDiv where
  geonameId : ℤ
  countryCode : Option String
  featureCode : Option String
  admin1Code : Option String
  admin2Code : Option String
  admin3Code : Option String
  admin4Code : Option String
  deriving DecidableEq, Repr

/-- Edges the hierarchy scripts can materialise.  `locInAdmin2` exists in the
edge vocabulary (spec §3) but, as the theorems show, is never produced. -/
inductive HierEdge where
  | locInAdmin1 (place admin : ℤ)
  | locInAdmin2 (place admin : ℤ)
  | locInAdmin3 (place admin : ℤ)
  | partOf (child parent : ℤ)
  | partOfCountry (admin : ℤ) (code : String)
  deriving DecidableEq, Repr

/-- `create_admin_divisions_for_country` over all countries: an AdminDivision
is merged for every Place with feature class `A` and feature code in
{ADM1..ADM4, ADMD}, copying the admin-code tuple. -/
def deriveAdminDivisions (places : List GPlace) : List AdminDiv :=
  (places.filter fun p =>
      p.featureClass == some "A" &&
      (p.featureCode.getD "") ∈ ["ADM1", "ADM2", "ADM3", "ADM4", "ADMD"]).map
    fun p =>
      { geonameId := p.geonameId
        countryCode := p.countryCode
        featureCode := p.featureCode
        admin1Code := p.admin1Code
        admin2Code := p.admin2Code
        admin3Code := p.admin3Code
        admin4Code := p.admin4Code }

/-- Edge set of the `_link_normal_country` and `_link_mega_country_by_admin1`
strategies of `link_places_to_admin1_for_country` (the mega strategy splits the
same query by `admin1Code`, whose non-nullness the join already requires, so
the two produce the same edges): non-admin Places of the country with a
non-null `admin1Code`, joined to the ADM1 divisions with the matching
`(countryCode, admin1Code)` pair. -/
def locatedInAdmin1Edges (country : String) (places : List GPlace)
    (admins : List AdminDiv) : List HierEdge :=
  (places.filter fun p =>
      p.countryCode == some country && p.admin1Code.isSome &&
      cypherNeq p.featureClass "A").flatMap
    fun p =>
      (admins.filter fun a =>
          a.featureCode == some "ADM1" && cypherEqOpt a.countryCode p.countryCode &&
          cypherEqOpt a.admin1Code p.admin1Code).map
        fun a => HierEdge.locInAdmin1 p.geonameId a.geonameId

/-- Edge set of the `_link_ultra_mega_country_by_admin2` strategy: its chunks
enumerate `DISTINCT p.admin2Code` with `p.admin2Code IS NOT NULL`, so a place
with a null `admin2Code` belongs to no chunk and is never linked; within a
chunk the MATCH/MERGE pattern is the same as the other strategies. -/
def locatedInAdmin1EdgesUltraMega (country : String) (places : List GPlace)
    (admins : List AdminDiv) : List HierEdge :=
  (places.filter fun p =>
      p.countryCode == some country && p.admin1Code.isSome && p.admin2Code.isSome &&
      cypherNeq p.featureClass "A").flatMap
    fun p =>
      (admins.filter fun a =>
          a.featureCode == some "ADM1" && cypherEqOpt a.countryCode p.countryCode &&
          cypherEqOpt a.admin1Code p.admin1Code).map
        fun a => HierEdge.locInAdmin1 p.geonameId a.geonameId

/-- `count_places_for_country`: the non-admin Places of the country. -/
def countPlacesForCountry (country : String) (places : List GPlace) : ℕ :=
  (places.filter fun p =>
      p.countryCode == some country && cypherNeq p.featureClass "A").length

/-- `link_places_to_admin1_for_country`: the adaptive strategy choice — the
admin2-chunked path for countries over 500 000 non-admin places, the shared
normal/mega edge set otherwise. -/
def linkPlacesToAdmin1ForCountry (country : String) (places : List GPlace)
    (admins : List AdminDiv) : List HierEdge :=
  if 500000 < countPlacesForCountry country places then
    locatedInAdmin1EdgesUltraMega country places admins
  else locatedInAdmin1Edges country places admins

/-- `link_admin_divisions_hierarchically`, ADM1 → Country part. -/
def partOfCountryEdges (admins : List AdminDiv) : List HierEdge :=
  (admins.filter fun a => a.featureCode == some "ADM1" && a.countryCode.isSome).map
    fun a => HierEdge.partOfCountry a.geonameId (a.countryCode.getD "")

/-- `link_admin_divisions_hierarchically`, ADM2 → ADM1 part. -/
def partOfAdmin2Edges (admins : List AdminDiv) : List HierEdge :=
  (admins.filter fun a2 => a2.featureCode == some "ADM2" && a2.admin1Code.isSome).flatMap
    fun a2 =>
      (admins.filter fun a1 =>
          a1.featureCode == some "ADM1" && cypherEqOpt a1.countryCode a2.countryCode &&
          cypherEqOpt a1.admin1Code a2.admin1Code).map
        fun a1 => HierEdge.partOf a2.geonameId a1.geonameId

/-- `link_admin_divisions_hierarchically`, ADM3 → ADM2 part. -/
def partOfAdmin3Edges (admins : List AdminDiv) : List HierEdge :=
  (admins.filter fun a3 => a3.featureCode == some "ADM3" && a3.admin2Code.isSome).flatMap
    fun a3 =>
      (admins.filter fun a2 =>
          a2.featureCode == some "ADM2" && cypherEqOpt a2.countryCode a3.countryCode &&
          cypherEqOpt a2.admin1Code a3.admin1Code &&
          cypherEqOpt a2.admin2Code a3.admin2Code).map
        fun a2 => HierEdge.partOf a3.geonameId a2.geonameId

/-- `AdminHierarchyBuilder.build_all` edge output on a fresh store: the
per-country ADMIN1 place links (via the adaptive strategy) plus the three
global hierarchy queries, with AdminDivisions derived from the Places. -/
def robustBuilderEdges (countries : List String) (places : List GPlace) : List HierEdge :=
  let admins := deriveAdminDivisions places
  countries.flatMap (fun c => linkPlacesToAdmin1ForCountry c places admins)
    ++ partOfCountryEdges admins ++ partOfAdmin2Edges admins ++ partOfAdmin3Edges admins

/-- `Admin3Linker.link_places_to_admin3_for_country` over all countries with
ADM3 divisions, on a store without pre-existing ADMIN3 links: non-admin Places
with non-null admin1..admin3 codes joined to the ADM3 division with the fully
matching code tuple. -/
def locatedInAdmin3Edges (places : List GPlace) (admins : List AdminDiv) : List HierEdge :=
  (places.filter fun p =>
      p.admin3Code.isSome && p.admin2Code.isSome && p.admin1Code.isSome &&
      cypherNeq p.featureClass "A").flatMap
    fun p =>
      (admins.filter fun a =>
          a.featureCode == some "ADM3" && cypherEqOpt a.countryCode p.countryCode &&
          cypherEqOpt a.admin1Code p.admin1Code && cypherEqOpt a.admin2Code p.admin2Code &&
          cypherEqOpt a.admin3Code p.admin3Code).map
        fun a => HierEdge.locInAdmin3 p.geonameId a.geonameId

/-- `Admin3Linker.link_admin4_to_admin3` on a fresh store: ADM4 divisions with
non-null admin1..admin3 codes joined to the matching ADM3 division. -/
def partOfAdmin4Edges (admins : List AdminDiv) : List HierEdge :=
  (admins.filter fun a4 =>
      a4.featureCode == some "ADM4" && a4.admin3Code.isSome && a4.admin2Code.isSome &&
      a4.admin1Code.isSome).flatMap
    fun a4 =>
      (admins.filter fun a3 =>
          a3.featureCode == some "ADM3" && cypherEqOpt a3.countryCode a4.countryCode &&
          cypherEqOpt a3.admin1Code a4.admin1Code && cypherEqOpt a3.admin2Code a4.admin2Code &&
          cypherEqOpt a3.admin3Code a4.admin3Code).map
        fun a3 => HierEdge.partOf a4.geonameId a3.geonameId

/-- `Admin3Linker.run` edge output. -/
def admin3LinkerEdges (places : List GPlace) : List HierEdge :=
  let admins := deriveAdminDivisions places
  locatedInAdmin3Edges places admins ++ partOfAdmin4Edges admins

/-! ## Legacy loader admin links (`src/load_geonames.py`)

The earlier Canada-scale loader materialises its own AdminDivision nodes keyed
`(code, countryCode, level)` — from the distinct non-empty admin1/admin2 codes
of the Places (`create_admin_divisions`) — and links Places to them by a single
code, not the full code tuple (`create_admin_relationships`). -/

/-- A place→division link of the legacy loader: the target division is
identified by its single admin code, country and level. -/
structure LegacyAdminLink where
  placeId : ℤ
  level : ℕ
  code : String
  country : String
  deriving DecidableEq, Repr

/-- `GeoNamesLoader.create_admin_relationships` (`load_geonames.py` lines
228-249): LOCATED_IN_ADMIN1 for every Place with a non-empty `admin1Code` and
LOCATED_IN_ADMIN2 for every Place with a non-empty `admin2Code`, each to the
`(code, countryCode, level)` division; `create_admin_divisions` has merged that
division for every such place, and a null `countryCode` matches no node. -/
def legacyCreateAdminRelationships (places : List GPlace) : List LegacyAdminLink :=
  ((places.filter fun p => cypherNeq p.admin1Code "" && p.countryCode.isSome).map
    fun p =>
      { placeId := p.geonameId, level := 1, code := p.admin1Code.getD ""
        country := p.countryCode.getD "" })
  ++ ((places.filter fun p => cypherNeq p.admin2Code "" && p.countryCode.isSome).map
    fun p =>
      { placeId := p.geonameId, level := 2, code := p.admin2Code.getD ""
        country := p.countryCode.getD "" })

/-! ## Wikidata streaming filter: alternate names
(`src/scripts/parsers/filter_wikidata_full_dump.py`)

`parse_entity` computes `list(set(all_labels + all_aliases))` and then removes
the primary name.  CPython leaves the iteration order of a `set` of strings
unspecified, so the computation is modelled relationally: the intermediate list
is any duplicate-free enumeration of the set. -/

/-- `_extract_all_labels`: every truthy label value, in dict iteration order. -/
def extractAllLabels (labels : List (String × Option String)) : List String :=
  labels.filterMap fun lv =>
    match lv.2 with
    | some v => if v = "" then none else some v
    | none => none

/-- `_extract_all_aliases`: every truthy alias value across all languages, in
dict iteration order. -/
def extractAllAliases (aliases : List (String × List (Option String))) : List String :=
  aliases.flatMap fun la =>
    la.2.filterMap fun v =>
      match v with
      | some s => if s = "" then none else some s
      | none => none

/-- `d` is a possible value of Python's `list(set(xs))`: a duplicate-free list
with exactly the elements of `xs`, in an unspecified order. -/
def IsPySetList (xs d : List String) : Prop :=
  d.Nodup ∧ ∀ a, a ∈ d ↔ a ∈ xs

instance (xs d : List String) : Decidable (IsPySetList xs d) := by
  have : IsPySetList xs d ↔ d.Nodup ∧ ∀ a ∈ d ++ xs, a ∈ d ↔ a ∈ xs := by
    constructor
    · exact fun ⟨h1, h2⟩ => ⟨h1, fun a _ => h2 a⟩
    · refine fun ⟨h1, h2⟩ => ⟨h1, fun a => ?_⟩
      by_cases hd : a ∈ d
      · exact h2 a (List.mem_append_left _ hd)
      · by_cases hx : a ∈ xs
        · exact h2 a (List.mem_append_right _ hx)
        · exact ⟨fun h => absurd h hd, fun h => absurd h hx⟩
  exact decidable_of_iff _ this.symm

/-- `l` is a possible alternate-names list of `parse_entity` (lines 202-209):
some duplicate-free enumeration of `set(all_labels + all_aliases)` with every
occurrence of the primary name filtered out. -/
def AltNamesRun (all_labels all_aliases : List String) (name : String)
    (l : List String) : Prop :=
  ∃ d, IsPySetList (all_labels ++ all_aliases) d ∧ l = d.filter (· ≠ name)

/-- First-seen deduplication, with the set of already-seen elements carried
as an accumulator. -/
def firstSeenDedupAux : List String → List String → List String
  | [], _ => []
  | a :: as, seen =>
      if seen.contains a then firstSeenDedupAux as seen
      else a :: firstSeenDedupAux as (a :: seen)

/-- First-seen deduplication: keep the first occurrence of each element. -/
def firstSeenDedup (xs : List String) : List String := firstSeenDedupAux xs []

/-- The alternate-names list as claim C8 words it: the union of all labels
except the primary and all aliases, deduplicated in first-seen order. -/
def claimedAltNames (all_labels all_aliases : List String) (name : String) : List String :=
  firstSeenDedup ((all_labels ++ all_aliases).filter (· ≠ name))


/-! ## Helper lemmas -/


theorem pyRoundHalfEven_ge_floor (x : ℚ) : ⌊x⌋ ≤ pyRoundHalfEven x := by
  unfold pyRoundHalfEven
  dsimp only
  split_ifs <;> omega

theorem pyRoundHalfEven_le_floor_add_one (x : ℚ) : pyRoundHalfEven x ≤ ⌊x⌋ + 1 := by
  unfold pyRoundHalfEven
  dsimp only
  split_ifs <;> omega

theorem le_pyRound3 (k : ℤ) (x : ℚ) (h : (k : ℚ)/1000 ≤ x) : (k : ℚ)/1000 ≤ pyRound3 x := by
  have h1 : (k : ℚ) ≤ x * 1000 := by linarith
  have h2 : k ≤ ⌊x * 1000⌋ := Int.le_floor.mpr h1
  have h3 : k ≤ pyRoundHalfEven (x * 1000) := le_trans h2 (pyRoundHalfEven_ge_floor _)
  unfold pyRound3
  have : (k : ℚ) ≤ (pyRoundHalfEven (x * 1000) : ℚ) := Int.cast_le.mpr h3
  linarith

theorem pyRound3_le (k : ℤ) (x : ℚ) (h : x ≤ (k : ℚ)/1000) : pyRound3 x ≤ (k : ℚ)/1000 := by
  have h1 : x * 1000 ≤ (k : ℚ) := by linarith
  by_cases hf : ⌊x * 1000⌋ < k
  · have h3 : pyRoundHalfEven (x * 1000) ≤ k :=
      le_trans (pyRoundHalfEven_le_floor_add_one _) (by omega)
    unfold pyRound3
    have : (pyRoundHalfEven (x * 1000) : ℚ) ≤ (k : ℚ) := Int.cast_le.mpr h3
    linarith
  · have hle : ⌊x * 1000⌋ ≤ k := le_trans (Int.floor_le_floor h1) (by simp)
    have heq : ⌊x * 1000⌋ = k := le_antisymm hle (not_lt.mp hf)
    have hxk : x * 1000 = (k : ℚ) := by
      have h4 : (k : ℚ) ≤ x * 1000 := by
        have := Int.floor_le (x * 1000)
        rw [heq] at this
        exact this
      linarith
    unfold pyRound3 pyRoundHalfEven
    rw [hxk]
    simp


theorem selectRelTypeGlobal_located_iff (pW pG : ℕ) (c d : ℚ) :
    selectRelTypeGlobal pW pG c d = "LOCATED_IN" ↔ pW < 60 ∧ 60 ≤ pG ∧ d ≤ 5 := by
  unfold selectRelTypeGlobal
  split_ifs with h1 h2 <;> simp_all

theorem selectRelTypeGlobal_sameAs_iff (pW pG : ℕ) (c d : ℚ) :
    selectRelTypeGlobal pW pG c d = "SAME_AS" ↔
      ¬(pW < 60 ∧ 60 ≤ pG ∧ d ≤ 5) ∧ (17/20 ≤ c ∧ d ≤ 1) := by
  unfold selectRelTypeGlobal
  split_ifs with h1 h2 <;> simp_all

theorem selectRelTypeOptimized_sameAs_iff (c d : ℚ) :
    selectRelTypeOptimized c d = "SAME_AS" ↔ 17/20 ≤ c ∧ d ≤ 1 := by
  unfold selectRelTypeOptimized
  split_ifs with h1 h2 <;> simp_all

theorem selectRelTypeOptimized_near_iff (c d : ℚ) :
    selectRelTypeOptimized c d = "NEAR" ↔ ¬(17/20 ≤ c ∧ d ≤ 1) ∧ d ≤ 5 := by
  unfold selectRelTypeOptimized
  split_ifs with h1 h2 <;> simp_all

theorem selectRelTypeOptimized_located_iff (c d : ℚ) :
    selectRelTypeOptimized c d = "LOCATED_IN" ↔ ¬(17/20 ≤ c ∧ d ≤ 1) ∧ 5 < d := by
  unfold selectRelTypeOptimized
  split_ifs with h1 h2 <;> simp_all


theorem mem_processNearbyGlobal (wd : WdPlace) (nb : List GnCand) (τ : ℚ) (r : LinkRec) :
    r ∈ processNearbyGlobal wd nb τ ↔
      ∃ gn ∈ nb, τ ≤ calculate_confidence wd gn gn.distance_km ∧
        r = { wikidataQid := wd.qid
              geonameId := gn.geonameId
              distance_km := pyRound3 gn.distance_km
              confidence := pyRound3 (calculate_confidence wd gn gn.distance_km)
              matchMethod := "geographic_proximity"
              relType := selectRelTypeGlobal (getEntityPriorityWd wd) (getEntityPriorityGn gn)
                           (calculate_confidence wd gn gn.distance_km) gn.distance_km } := by
  simp only [processNearbyGlobal, List.mem_filterMap]
  constructor
  · rintro ⟨gn, hgn, hf⟩
    by_cases h : τ ≤ calculate_confidence wd gn gn.distance_km
    · rw [if_pos h] at hf
      exact ⟨gn, hgn, h, (Option.some_injective _ hf).symm⟩
    · rw [if_neg h] at hf
      cases hf
  · rintro ⟨gn, hgn, h, rfl⟩
    exact ⟨gn, hgn, by rw [if_pos h]⟩

theorem processSourceOptimized_eq_some (wp : WdPlace) (nb : List GnCand) (τ : ℚ) (r : LinkRec)
    (h : processSourceOptimized wp nb τ = some r) :
    ∃ best rest, nb = best :: rest ∧
      τ ≤ calcConfidenceOptimized wp best best.distance_km ∧
      r = { wikidataQid := wp.qid
            geonameId := best.geonameId
            distance_km := pyRound3 best.distance_km
            confidence := pyRound3 (calcConfidenceOptimized wp best best.distance_km)
            matchMethod := ""
            relType := selectRelTypeOptimized (calcConfidenceOptimized wp best best.distance_km)
                         best.distance_km } := by
  match nb, h with
  | best :: rest, h => ?_
  simp only [processSourceOptimized] at h
  by_cases hc : τ ≤ calcConfidenceOptimized wp best best.distance_km
  · rw [if_pos hc] at h
    exact ⟨best, rest, rfl, hc, (Option.some_injective _ h).symm⟩
  · rw [if_neg hc] at h
    cases h


theorem mem_linkCountryBatchOptimized_qid (places : List (WdPlace × List GnCand)) (τ : ℚ)
    (r : LinkRec) (h : r ∈ linkCountryBatchOptimized places τ) :
    r.wikidataQid ∈ places.map (fun p => p.1.qid) := by
  simp only [linkCountryBatchOptimized, List.mem_filterMap] at h
  obtain ⟨p, hp, hf⟩ := h
  obtain ⟨best, rest, -, -, rfl⟩ := processSourceOptimized_eq_some _ _ _ _ hf
  exact List.mem_map.mpr ⟨p, hp, rfl⟩

theorem linkCountryBatchOptimized_countP_le_one (places : List (WdPlace × List GnCand))
    (τ : ℚ) (q : String) (hnd : (places.map (fun p => p.1.qid)).Nodup) :
    ((linkCountryBatchOptimized places τ).countP (fun r => r.wikidataQid == q)) ≤ 1 := by
  induction places with
  | nil => simp [linkCountryBatchOptimized]
  | cons p ps ih =>
      rw [List.map_cons, List.nodup_cons] at hnd
      have htail := ih hnd.2
      show ((List.filterMap _ (p :: ps)).countP _) ≤ 1
      rw [List.filterMap_cons]
      cases hf : processSourceOptimized p.1 p.2 τ with
      | none => exact htail
      | some r =>
          rw [List.countP_cons]
          by_cases hq : (r.wikidataQid == q) = true
          · obtain ⟨best, rest, -, -, rfl⟩ := processSourceOptimized_eq_some _ _ _ _ hf
            have hqeq : p.1.qid = q := by simpa using hq
            have hzero : (linkCountryBatchOptimized ps τ).countP (fun r => r.wikidataQid == q) = 0 := by
              rw [List.countP_eq_zero]
              intro r' hr'
              have := mem_linkCountryBatchOptimized_qid ps τ r' hr'
              simp only [beq_iff_eq]
              intro hcon
              exact hnd.1 (by rw [hqeq, ← hcon]; exact this)
            show (linkCountryBatchOptimized ps τ).countP _ + _ ≤ 1
            rw [hzero, hq]
            simp
          · show (linkCountryBatchOptimized ps τ).countP _ + _ ≤ 1
            simp only [hq, if_false]
            simpa using htail


theorem mem_directIdEdges (wps : List WpNode) (places : List PlaceNode) (e : Edge) :
    e ∈ directIdEdges wps places ↔
      ∃ wp ∈ wps, ∃ p ∈ places, ∃ s, wp.geonamesId = some s ∧ wp.hasSameAs = false ∧
        toIntegerStr s = some p.geonameId ∧
        e = { src := wp.qid, tgtGeonameId := p.geonameId, relType := "SAME_AS",
              confidence := 1, distance_km := 0, evidence := "geonames_id_match" } := by
  simp only [directIdEdges, List.mem_flatMap]
  constructor
  · rintro ⟨⟨qid, gid, hsa⟩, hwp, he⟩
    cases gid with
    | none => cases he
    | some s =>
        cases hsa with
        | true => cases he
        | false =>
            dsimp only at he
            cases hn : toIntegerStr s with
            | none => rw [hn] at he; cases he
            | some n =>
                rw [hn] at he
                simp only [List.mem_map, List.mem_filter] at he
                obtain ⟨p, ⟨hp, hpn⟩, rfl⟩ := he
                have hpn' : p.geonameId = n := by simpa using hpn
                exact ⟨⟨qid, some s, false⟩, hwp, p, hp, s, rfl, rfl, by rw [hn, hpn'], rfl⟩
  · rintro ⟨⟨qid, gid, hsa⟩, hwp, p, hp, s, hs, hb, hn, rfl⟩
    cases hs
    cases hb
    refine ⟨⟨qid, some s, false⟩, hwp, ?_⟩
    dsimp only
    rw [hn]
    simp only [List.mem_map, List.mem_filter]
    exact ⟨p, ⟨hp, by simp⟩, rfl⟩


theorem length_filter_key_le_one {α β : Type} [DecidableEq β] (l : List α) (f : α → β) (n : β)
    (h : (l.map f).Nodup) : (l.filter (fun x => f x == n)).length ≤ 1 := by
  induction l with
  | nil => simp
  | cons a t ih =>
      rw [List.map_cons, List.nodup_cons] at h
      rw [List.filter_cons]
      by_cases ha : (f a == n) = true
      · have han : f a = n := by simpa using ha
        have hnil : t.filter (fun x => f x == n) = [] := by
          rw [List.filter_eq_nil_iff]
          intro x hx
          simp only [beq_iff_eq]
          intro hcon
          exact h.1 (by rw [han, ← hcon]; exact List.mem_map.mpr ⟨x, hx, rfl⟩)
        rw [ha, hnil]
        simp
      · simp only [ha, if_false]
        exact ih h.2

theorem directIdEdges_cons (wp : WpNode) (wps : List WpNode) (places : List PlaceNode) :
    directIdEdges (wp :: wps) places = directIdEdges [wp] places ++ directIdEdges wps places := by
  simp [directIdEdges]

theorem directIdEdges_singleton_length (wp : WpNode) (places : List PlaceNode)
    (hp : (places.map PlaceNode.geonameId).Nodup) :
    (directIdEdges [wp] places).length ≤ 1 := by
  obtain ⟨qid, gid, hsa⟩ := wp
  cases gid with
  | none => simp [directIdEdges]
  | some s =>
      cases hsa with
      | true => simp [directIdEdges]
      | false =>
          simp only [directIdEdges, List.flatMap_cons, List.flatMap_nil, List.append_nil]
          cases hn : toIntegerStr s with
          | none => simp
          | some n =>
              rw [List.length_map]
              have := length_filter_key_le_one places PlaceNode.geonameId n hp
              simpa using this

theorem directIdEdges_src_mem (wps : List WpNode) (places : List PlaceNode) (e : Edge)
    (h : e ∈ directIdEdges wps places) : e.src ∈ wps.map WpNode.qid := by
  obtain ⟨wp, hwp, p, hp, s, hs, hb, hn, rfl⟩ := (mem_directIdEdges wps places e).mp h
  exact List.mem_map.mpr ⟨wp, hwp, rfl⟩

theorem directIdEdges_countP_le_one (wps : List WpNode) (places : List PlaceNode) (q : String)
    (hw : (wps.map WpNode.qid).Nodup) (hp : (places.map PlaceNode.geonameId).Nodup) :
    ((directIdEdges wps places).countP (fun e => e.src == q)) ≤ 1 := by
  induction wps with
  | nil => simp [directIdEdges]
  | cons wp ws ih =>
      rw [List.map_cons, List.nodup_cons] at hw
      rw [directIdEdges_cons, List.countP_append]
      by_cases hq : wp.qid = q
      · have hzero : (directIdEdges ws places).countP (fun e => e.src == q) = 0 := by
          rw [List.countP_eq_zero]
          intro e he
          simp only [beq_iff_eq]
          intro hcon
          have := directIdEdges_src_mem ws places e he
          rw [hcon, ← hq] at this
          exact hw.1 this
        have hone : (directIdEdges [wp] places).countP (fun e => e.src == q)
            ≤ (directIdEdges [wp] places).length := List.countP_le_length _
        have := directIdEdges_singleton_length wp places hp
        omega
      · have hzero : (directIdEdges [wp] places).countP (fun e => e.src == q) = 0 := by
          rw [List.countP_eq_zero]
          intro e he
          have := directIdEdges_src_mem [wp] places e he
          simp only [List.map_cons, List.map_nil, List.mem_singleton] at this
          simp only [beq_iff_eq, this]
          exact hq
        rw [hzero]
        simpa using ih hw.2


/-! ## Claim theorems -/

/-- Claim C9: when loading WikidataPlace records, a record whose latitude is
outside [-90, 90] but within [-180, 180] and whose longitude is within
[-90, 90] has its latitude and longitude swapped (counted as fixed-swapped) and
is written; a record whose coordinates are out of range and not fixable by this
swap is dropped (counted as invalid); a record with in-range coordinates is
written unchanged. -/
theorem C9_coordinate_sanity_fix (lat lon : ℚ) :
    (((lat < -90 ∨ 90 < lat) ∧ -180 ≤ lat ∧ lat ≤ 180 ∧ -90 ≤ lon ∧ lon ≤ 90) →
      validateCoords (some lat) (some lon) = .fixedSwapped lon lat)
    ∧ ((-90 ≤ lat ∧ lat ≤ 90 ∧ -180 ≤ lon ∧ lon ≤ 180) →
      validateCoords (some lat) (some lon) = .valid lat lon)
    ∧ ((¬(-90 ≤ lat ∧ lat ≤ 90 ∧ -180 ≤ lon ∧ lon ≤ 180) ∧
        ¬(-90 ≤ lon ∧ lon ≤ 90 ∧ -180 ≤ lat ∧ lat ≤ 180)) →
      validateCoords (some lat) (some lon) = .invalid) := by
  refine ⟨fun h => ?_, fun h => ?_, fun h => ?_⟩
  · simp only [validateCoords]
    rw [if_neg (by rcases h.1 with h1 | h1 <;> intro hc <;>
          [exact absurd hc.1 (by linarith); exact absurd hc.2.1 (by linarith)]),
       if_pos ⟨h.2.2.2.1, h.2.2.2.2, h.2.1, h.2.2.1⟩]
  · simp only [validateCoords]
    rw [if_pos h]
  · simp only [validateCoords]
    rw [if_neg h.1, if_neg (fun hc => h.2 hc)]

unseal Rat.mul Rat.inv Rat.add Rat.sub in
/-- Witness for C9 at lat 100 / lon 50 (swap), lat 45 / lon 90 (valid) and
lat 200 / lon 300 (invalid). -/
theorem C9_coordinate_sanity_fix_witness :
    validateCoords (some 100) (some 50) = .fixedSwapped 50 100
    ∧ validateCoords (some 45) (some 90) = .valid 45 90
    ∧ validateCoords (some 200) (some 300) = .invalid :=
  ⟨(C9_coordinate_sanity_fix 100 50).1 (by refine ⟨Or.inr ?_, ?_, ?_, ?_, ?_⟩ <;> decide),
   (C9_coordinate_sanity_fix 45 90).2.1 (by refine ⟨?_, ?_, ?_, ?_⟩ <;> decide),
   (C9_coordinate_sanity_fix 200 300).2.2 (by constructor <;> decide)⟩

/-- Claim C6 (counterexample): with an empty completed set and "CA" recorded in
the failed set, the restart worklist still contains "CA" — a failed country is
not skipped on restart, contradicting the claim. -/
theorem C6_failed_retried_counterexample :
    "CA" ∈ getCountryList ⟨[], [⟨"CA", "timeout"⟩]⟩ ["CA", "US"]
    ∧ "CA" ∈ (ProgressState.mk [] [⟨"CA", "timeout"⟩]).failed_countries.map FailedEntry.country := by
  constructor <;> decide

/-- Claim C6 (amended): on restart, a country is on the worklist iff it is in
the stored country list and not in the completed set; the failed set does not
influence the worklist, so failed countries are retried. -/
theorem C6_restart_worklist (state : ProgressState) (countries : List String) (c : String) :
    c ∈ getCountryList state countries ↔ c ∈ countries ∧ c ∉ state.completed_countries := by
  simp [getCountryList, List.mem_filter]

/-- Claim C7 (counterexample): a row with latitude 200 (out of range) but
parseable coordinates is emitted by `parse_geonames_row` with latitude 200,
contradicting both the discard claim and the range invariant. -/
theorem C7_out_of_range_emitted_counterexample :
    (parse_geonames_row
      { geonameid := some 99, name := "Nowhere", asciiname := "Nowhere",
        alternatenames := "", latitude := some 200, longitude := some 0,
        feature_class := "P", feature_code := "PPL", country_code := "XX",
        admin1_code := "", admin2_code := "", admin3_code := "", admin4_code := "",
        population := some 0, elevation := none, timezone := "",
        modification_date := "" }).map PlaceRec.latitude = some 200
    ∧ ¬((200 : ℚ) ≤ 90) := by
  constructor
  · decide
  · norm_num

/-- Claim C7 (amended): the reader emits a Place record iff the id, latitude
and longitude all parse; discarded rows are counted; the emitted record carries
the parsed coordinates unchanged, with no range validation. -/
theorem C7_reader_emission (row : GeoRow) (rows : List GeoRow) :
    ((parse_geonames_row row).isSome ↔
      row.geonameid.isSome ∧ row.latitude.isSome ∧ row.longitude.isSome)
    ∧ (∀ rec, parse_geonames_row row = some rec →
        row.latitude = some rec.latitude ∧ row.longitude = some rec.longitude)
    ∧ (loadRows rows).2 = (rows.filter (fun r => (parse_geonames_row r).isNone)).length := by
  refine ⟨?_, ?_, ?_⟩
  · obtain ⟨gid, nm, an, alt, lat, lon, rest⟩ := row
    cases gid <;> cases lat <;> cases lon <;> simp [parse_geonames_row]
  · intro rec h
    rcases hg : row.geonameid with _ | gid <;> rcases hl : row.latitude with _ | lat <;>
      rcases ho : row.longitude with _ | lon <;>
      simp only [parse_geonames_row, hg, hl, ho] at h <;> try cases h
    exact ⟨rfl, rfl⟩
  · simp [loadRows, List.countP_eq_length_filter]

unseal Rat.mul Rat.inv Rat.add Rat.sub in
/-- Witness for C7 at a well-formed Toronto row. -/
theorem C7_reader_emission_witness :
    (GeoRow.mk (some 6167865) "Toronto" "Toronto" "York, " (some (437/10)) (some (-794/10))
        "P" "PPL" "CA" "08" "" "" "" (some 2731571) none "America/Toronto"
        "2023-01-01").latitude = some ((437/10 : ℚ))
    ∧ (GeoRow.mk (some 6167865) "Toronto" "Toronto" "York, " (some (437/10)) (some (-794/10))
        "P" "PPL" "CA" "08" "" "" "" (some 2731571) none "America/Toronto"
        "2023-01-01").longitude = some ((-794/10 : ℚ)) :=
  (C7_reader_emission _ []).2.1
    (PlaceRec.mk 6167865 "Toronto" "Toronto" ["York"] (437/10) (-794/10) "P" "PPL" "P.PPL"
      "CA" "08" "" "" "" 2731571 0 "America/Toronto" "2023-01-01")
    (by decide)


/-- Claim C8 (counterexample): with labels Toronto (primary) and Tkaronto and
alias York, the list ["York", "Tkaronto"] is a possible output of the filter's
`list(set(labels + aliases))` computation, yet the first-seen order of the
union is ["Tkaronto", "York"] — the emitted order is not the first-seen order. -/
theorem C8_order_not_preserved_counterexample :
    extractAllLabels [("en", some "Toronto"), ("mo", some "Tkaronto")] = ["Toronto", "Tkaronto"]
    ∧ extractAllAliases [("en", [some "York"])] = ["York"]
    ∧ AltNamesRun ["Toronto", "Tkaronto"] ["York"] "Toronto" ["York", "Tkaronto"]
    ∧ claimedAltNames ["Toronto", "Tkaronto"] ["York"] "Toronto" = ["Tkaronto", "York"]
    ∧ (["York", "Tkaronto"] ≠ ["Tkaronto", "York"]) :=
  ⟨by decide, by decide, ⟨["York", "Tkaronto", "Toronto"], by decide, by decide⟩,
   by decide, by decide⟩

/-- Claim C8 (amended): every possible alternate-names list of the filter
contains no duplicates, does not contain the primary name, and as a set equals
the union of all labels and aliases minus the primary name; the order is
whatever the Python set iteration yields, not necessarily first-seen order. -/
theorem C8_alt_names_set (all_labels all_aliases : List String) (name : String)
    (l : List String) (h : AltNamesRun all_labels all_aliases name l) :
    l.Nodup ∧ name ∉ l ∧
      ∀ a, a ∈ l ↔ (a ∈ all_labels ∨ a ∈ all_aliases) ∧ a ≠ name := by
  obtain ⟨d, ⟨hnd, hmem⟩, rfl⟩ := h
  refine ⟨hnd.filter _, ?_, fun a => ?_⟩
  · intro hmemf
    have := List.of_mem_filter hmemf
    simp at this
  · rw [List.mem_filter]
    constructor
    · rintro ⟨hd, hne⟩
      have := (hmem a).mp hd
      rw [List.mem_append] at this
      exact ⟨this, by simpa using hne⟩
    · rintro ⟨hor, hne⟩
      exact ⟨(hmem a).mpr (List.mem_append.mpr hor), by simpa using hne⟩

/-- Witness for C8: the run of the counterexample input satisfies the set
characterisation. -/
theorem C8_alt_names_set_witness :
    (["York", "Tkaronto"] : List String).Nodup ∧ "Toronto" ∉ (["York", "Tkaronto"] : List String) ∧
      ∀ a, a ∈ (["York", "Tkaronto"] : List String) ↔
        (a ∈ (["Toronto", "Tkaronto"] : List String) ∨ a ∈ (["York"] : List String)) ∧ a ≠ "Toronto" :=
  C8_alt_names_set ["Toronto", "Tkaronto"] ["York"] "Toronto" ["York", "Tkaronto"]
    ⟨["York", "Tkaronto", "Toronto"], by decide, by decide⟩


unseal Rat.mul Rat.inv Rat.add Rat.sub in
/-- Claim C1 (counterexample): the optimized spatial linker, for a source named
Springfield whose nearest candidate is the place Springfield at 7 km
(confidence 0.79, above the 0.7 threshold), emits a LOCATED_IN edge with
distance 7 km — although the source entity-priority is 70 (not < 60) and the
distance exceeds 5 km, contradicting the claimed LOCATED_IN conditions. -/
theorem C1_optimized_located_in_counterexample :
    processSourceOptimized ⟨"Q1", some "Springfield", none⟩
        [⟨101, some "Springfield", some "P", some "PPL", 7⟩] (7/10)
      = some { wikidataQid := "Q1", geonameId := 101, distance_km := 7,
               confidence := 79/100, matchMethod := "", relType := "LOCATED_IN" }
    ∧ ¬((7 : ℚ) ≤ 5)
    ∧ ¬(getEntityPriorityWd ⟨"Q1", some "Springfield", none⟩ < 60) := by
  refine ⟨by decide, by norm_num, by decide⟩

/-- Claim C1 (amended): the global geographic linker selects, per candidate
with confidence at least the threshold: LOCATED_IN iff source priority < 60,
target priority ≥ 60 and distance ≤ 5 km (checked first, taking precedence);
otherwise SAME_AS iff confidence ≥ 0.85 and distance ≤ 1 km; otherwise NEAR —
and since its source priority is the constant 70 it never emits LOCATED_IN.
The optimized linker scores only the nearest candidate and selects SAME_AS iff
confidence ≥ 0.85 and distance ≤ 1 km, NEAR iff otherwise distance ≤ 5 km, and
LOCATED_IN otherwise (distance > 5 km), with no priority check. -/
theorem C1_edge_type_selection (pW pG : ℕ) (c d : ℚ) (wp : WdPlace) :
    (selectRelTypeGlobal pW pG c d = "LOCATED_IN" ↔ pW < 60 ∧ 60 ≤ pG ∧ d ≤ 5)
    ∧ (selectRelTypeGlobal pW pG c d = "SAME_AS" ↔
        ¬(pW < 60 ∧ 60 ≤ pG ∧ d ≤ 5) ∧ (17/20 ≤ c ∧ d ≤ 1))
    ∧ selectRelTypeGlobal (getEntityPriorityWd wp) pG c d ≠ "LOCATED_IN"
    ∧ (selectRelTypeOptimized c d = "SAME_AS" ↔ 17/20 ≤ c ∧ d ≤ 1)
    ∧ (selectRelTypeOptimized c d = "NEAR" ↔ ¬(17/20 ≤ c ∧ d ≤ 1) ∧ d ≤ 5)
    ∧ (selectRelTypeOptimized c d = "LOCATED_IN" ↔ ¬(17/20 ≤ c ∧ d ≤ 1) ∧ 5 < d) := by
  refine ⟨selectRelTypeGlobal_located_iff pW pG c d,
          selectRelTypeGlobal_sameAs_iff pW pG c d, ?_,
          selectRelTypeOptimized_sameAs_iff c d,
          selectRelTypeOptimized_near_iff c d,
          selectRelTypeOptimized_located_iff c d⟩
  intro h
  rw [selectRelTypeGlobal_located_iff] at h
  simp [getEntityPriorityWd] at h

unseal Rat.mul Rat.inv Rat.add Rat.sub in
/-- Claim C3 (counterexample): for a Wikidata city named Paris matched against
the GeoNames capital record Paris (feature code PPLC) at 0.05 km, the code's
confidence is 0.92 (its tables give the source the constant priority 70 and
give PPLC the default 50), while the formula claimed from the §4.6.4 tables
(city → 75, PPLC → 95, both ≥ 70, boosted type clamps to 1) yields 1.0. -/
theorem C3_priority_tables_counterexample :
    calculate_confidence ⟨"Q90", some "Paris", some "city"⟩
        ⟨2988507, some "Paris", some "P", some "PPLC", 1/20⟩ (1/20) = 23/25
    ∧ claimedConfidenceSpec464 "city" "Paris" "Paris" "P" "PPLC" (1/20) = 1
    ∧ ((23 : ℚ)/25 ≠ 1) := by
  refine ⟨by decide, by decide, by norm_num⟩

unseal Rat.mul Rat.inv Rat.add Rat.sub in
/-- Witness for C1: the global selection at source priority 70 (the constant
the code uses) with a high-priority target at 0.5 km is not LOCATED_IN, and
the optimized selection at confidence 0.79 / distance 7 km is LOCATED_IN. -/
theorem C1_edge_type_selection_witness :
    selectRelTypeGlobal (getEntityPriorityWd ⟨"Q172", some "Toronto", none⟩) 85
      (9/10) (1/2) ≠ "LOCATED_IN"
    ∧ selectRelTypeOptimized (79/100) 7 = "LOCATED_IN" :=
  ⟨(C1_edge_type_selection 70 85 (9/10) (1/2) ⟨"Q172", some "Toronto", none⟩).2.2.1,
   ((C1_edge_type_selection 70 85 (79/100) 7 ⟨"Q172", some "Toronto", none⟩).2.2.2.2.2).mpr
     (by constructor
         · intro h
           have := h.1
           norm_num at this
         · norm_num)⟩

/-- The claimed stepwise distance component is nonnegative. -/
theorem distComponentClaim_nonneg (d : ℚ) : 0 ≤ distComponentClaim d := by
  unfold distComponentClaim
  split_ifs <;> norm_num

/-- The claimed name component is nonnegative. -/
theorem nameComponentClaim_nonneg (a b : String) : 0 ≤ nameComponentClaim a b := by
  unfold nameComponentClaim
  split_ifs <;> positivity

/-- The code's type component is nonnegative. -/
theorem typeComponentCode_nonneg (wp : WdPlace) (gn : GnCand) :
    0 ≤ typeComponentCode wp gn := by
  unfold typeComponentCode typeComponentOfPriorities
  dsimp only
  split_ifs
  · exact le_min (by positivity) (by norm_num)
  · positivity

/-- Claim C3 (amended): the global linker's confidence equals
0.30·distance + 0.50·name + 0.20·type capped at 1, with the stepwise distance
decay and the claimed name rule, but with the code's entity priorities — the
constant 70 for the Wikidata source and the code's own feature-code table for
the GeoNames target (with the 1.2 boost clamped at 1 when both reach 70) — and
the result lies in [0, 1]; the optimized linker uses the same formula with the
type component fixed at 0.7. -/
theorem C3_confidence_decomposition (wp : WdPlace) (gn : GnCand) (d : ℚ) :
    calculate_confidence wp gn d
      = min 1 ((3/10) * distComponentClaim d
          + (1/2) * nameComponentClaim (pyToLower (wp.name.getD "")) (pyToLower (gn.name.getD ""))
          + (1/5) * typeComponentCode wp gn)
    ∧ calcConfidenceOptimized wp gn d
      = min 1 ((3/10) * distComponentClaim d
          + (1/2) * nameComponentClaim (pyToLower (wp.name.getD "")) (pyToLower (gn.name.getD ""))
          + (1/5) * (7/10))
    ∧ 0 ≤ calculate_confidence wp gn d ∧ calculate_confidence wp gn d ≤ 1
    ∧ getEntityPriorityWd wp = 70 := by
  have heq1 : calculate_confidence wp gn d
      = min 1 ((3/10) * distComponentClaim d
          + (1/2) * nameComponentClaim (pyToLower (wp.name.getD "")) (pyToLower (gn.name.getD ""))
          + (1/5) * typeComponentCode wp gn) := by
    unfold calculate_confidence distComponentClaim nameComponentClaim typeComponentCode
      typeComponentOfPriorities
    rw [min_comm]
    ring_nf
  have heq2 : calcConfidenceOptimized wp gn d
      = min 1 ((3/10) * distComponentClaim d
          + (1/2) * nameComponentClaim (pyToLower (wp.name.getD "")) (pyToLower (gn.name.getD ""))
          + (1/5) * (7/10)) := by
    unfold calcConfidenceOptimized distComponentClaim nameComponentClaim
    rw [min_comm]
    ring_nf
  have hS : (0:ℚ) ≤ (3/10) * distComponentClaim d
      + (1/2) * nameComponentClaim (pyToLower (wp.name.getD "")) (pyToLower (gn.name.getD ""))
      + (1/5) * typeComponentCode wp gn :=
    add_nonneg
      (add_nonneg (mul_nonneg (by norm_num) (distComponentClaim_nonneg d))
        (mul_nonneg (by norm_num) (nameComponentClaim_nonneg _ _)))
      (mul_nonneg (by norm_num) (typeComponentCode_nonneg wp gn))
  refine ⟨heq1, heq2, ?_, ?_, rfl⟩
  · rw [heq1]
    exact le_min (by norm_num) hS
  · unfold calculate_confidence
    exact min_le_right _ _


unseal Rat.mul Rat.inv Rat.add Rat.sub in
/-- Claim C2 (counterexample): the global geographic linker, processing a
source Toronto with two equally-named candidates at 0.05 km and 0.1 km, emits
two SAME_AS edges for the single source, each with evidence
"geographic_proximity" — violating both the at-most-one-SAME_AS property and
the claimed evidence vocabulary. -/
theorem C2_sameas_multiplicity_counterexample :
    ((createLinksBatchGlobal (processNearbyGlobal ⟨"Q172", some "Toronto", none⟩
        [⟨10, some "Toronto", some "P", some "PPL", 1/20⟩,
         ⟨20, some "Toronto", some "P", some "PPL", 1/10⟩] (1/2))).countP
      (fun e => e.relType == "SAME_AS" && e.src == "Q172")) = 2
    ∧ ∀ e ∈ createLinksBatchGlobal (processNearbyGlobal ⟨"Q172", some "Toronto", none⟩
        [⟨10, some "Toronto", some "P", some "PPL", 1/20⟩,
         ⟨20, some "Toronto", some "P", some "PPL", 1/10⟩] (1/2)),
        e.evidence = "geographic_proximity" ∧ e.evidence ≠ "spatial_proximity"
          ∧ e.evidence ≠ "geonames_id_match" := by
  constructor
  · decide
  · decide

/-- Claim C2 (amended): every Phase A direct-ID edge is a SAME_AS edge with
evidence "geonames_id_match", confidence 1.0 and distance 0.0, and with unique
node keys at most one per source; every optimized-linker SAME_AS edge carries
evidence "spatial_proximity", confidence ≥ 0.85 and distance ≤ 1 km, at most
one per source per batch; the global geographic linker's SAME_AS edges carry
evidence "geographic_proximity" (confidence ≥ 0.85 and distance ≤ 1 km still
hold) and one source may receive several in a batch. -/
theorem C2_same_as_invariant (wps : List WpNode) (places : List PlaceNode)
    (pl : List (WdPlace × List GnCand)) (wd : WdPlace) (nb : List GnCand)
    (τ : ℚ) (q : String) :
    (∀ e ∈ directIdEdges wps places,
        e.relType = "SAME_AS" ∧ e.evidence = "geonames_id_match"
          ∧ e.confidence = 1 ∧ e.distance_km = 0)
    ∧ ((wps.map WpNode.qid).Nodup → (places.map PlaceNode.geonameId).Nodup →
        ((directIdEdges wps places).countP (fun e => e.src == q)) ≤ 1)
    ∧ (∀ e ∈ createLinksBatchOptimized (linkCountryBatchOptimized pl τ),
        e.relType = "SAME_AS" →
          e.evidence = "spatial_proximity" ∧ 17/20 ≤ e.confidence ∧ e.distance_km ≤ 1)
    ∧ ((pl.map (fun p => p.1.qid)).Nodup →
        ((createLinksBatchOptimized (linkCountryBatchOptimized pl τ)).countP
          (fun e => e.src == q)) ≤ 1)
    ∧ (∀ e ∈ createLinksBatchGlobal (processNearbyGlobal wd nb τ),
        e.relType = "SAME_AS" →
          e.evidence = "geographic_proximity" ∧ 17/20 ≤ e.confidence ∧ e.distance_km ≤ 1) := by
  refine ⟨?_, ?_, ?_, ?_, ?_⟩
  · intro e he
    obtain ⟨wp, hwp, p, hp, s, hs, hb, hn, rfl⟩ := (mem_directIdEdges wps places e).mp he
    exact ⟨rfl, rfl, rfl, rfl⟩
  · exact fun hw hp => directIdEdges_countP_le_one wps places q hw hp
  · intro e he hrel
    simp only [createLinksBatchOptimized, List.mem_map] at he
    obtain ⟨r, hr, rfl⟩ := he
    simp only [linkCountryBatchOptimized, List.mem_filterMap] at hr
    obtain ⟨p, hp, hf⟩ := hr
    obtain ⟨best, rest, -, -, rfl⟩ := processSourceOptimized_eq_some _ _ _ _ hf
    have hsel : selectRelTypeOptimized (calcConfidenceOptimized p.1 best best.distance_km)
        best.distance_km = "SAME_AS" := hrel
    obtain ⟨hc, hd⟩ := (selectRelTypeOptimized_sameAs_iff _ _).mp hsel
    refine ⟨rfl, ?_, ?_⟩
    · have := le_pyRound3 850 (calcConfidenceOptimized p.1 best best.distance_km)
        (by push_cast; linarith)
      calc (17/20 : ℚ) = (850 : ℤ)/1000 := by norm_num
        _ ≤ _ := this
    · have := pyRound3_le 1000 best.distance_km (by push_cast; linarith)
      calc pyRound3 best.distance_km ≤ ((1000 : ℤ) : ℚ)/1000 := this
        _ = 1 := by norm_num
  · intro hnd
    have h := linkCountryBatchOptimized_countP_le_one pl τ q hnd
    have : ((createLinksBatchOptimized (linkCountryBatchOptimized pl τ)).countP
        (fun e => e.src == q))
        = ((linkCountryBatchOptimized pl τ).countP (fun r => r.wikidataQid == q)) := by
      simp [createLinksBatchOptimized, List.countP_map, Function.comp_def]
    rw [this]
    exact h
  · intro e he hrel
    simp only [createLinksBatchGlobal, List.mem_map] at he
    obtain ⟨r, hr, rfl⟩ := he
    obtain ⟨gn, hgn, hτ, rfl⟩ := (mem_processNearbyGlobal wd nb τ r).mp hr
    have hsel : selectRelTypeGlobal (getEntityPriorityWd wd) (getEntityPriorityGn gn)
        (calculate_confidence wd gn gn.distance_km) gn.distance_km = "SAME_AS" := hrel
    obtain ⟨-, hc, hd⟩ := (selectRelTypeGlobal_sameAs_iff _ _ _ _).mp hsel
    refine ⟨rfl, ?_, ?_⟩
    · have := le_pyRound3 850 (calculate_confidence wd gn gn.distance_km)
        (by push_cast; linarith)
      calc (17/20 : ℚ) = (850 : ℤ)/1000 := by norm_num
        _ ≤ _ := this
    · have := pyRound3_le 1000 gn.distance_km (by push_cast; linarith)
      calc pyRound3 gn.distance_km ≤ ((1000 : ℤ) : ℚ)/1000 := this
        _ = 1 := by norm_num

unseal Rat.mul Rat.inv Rat.add Rat.sub in
/-- Witness for C2: one direct-ID edge from a store with a single matching
pair, and the count bound for it. -/
theorem C2_same_as_invariant_witness :
    ((Edge.mk "Q172" 6167865 "SAME_AS" 1 0 "geonames_id_match").relType = "SAME_AS"
        ∧ (Edge.mk "Q172" 6167865 "SAME_AS" 1 0 "geonames_id_match").evidence = "geonames_id_match"
        ∧ (Edge.mk "Q172" 6167865 "SAME_AS" 1 0 "geonames_id_match").confidence = 1
        ∧ (Edge.mk "Q172" 6167865 "SAME_AS" 1 0 "geonames_id_match").distance_km = 0)
    ∧ ((directIdEdges [⟨"Q172", some "6167865", false⟩] [⟨6167865⟩]).countP
        (fun e => e.src == "Q172")) ≤ 1 := by
  have h := C2_same_as_invariant [⟨"Q172", some "6167865", false⟩] [⟨6167865⟩]
    [] ⟨"Q0", none, none⟩ [] (7/10) "Q172"
  exact ⟨h.1 (Edge.mk "Q172" 6167865 "SAME_AS" 1 0 "geonames_id_match") (by decide),
         h.2.1 (by decide) (by decide)⟩


/-- Claim C4: Phase A merges a SAME_AS edge, with evidence "geonames_id_match",
confidence 1.0 and distance 0.0, from exactly those WikidataPlaces whose string
geonamesId coerces to an integer and that have no outgoing SAME_AS, to the
Places whose integer geonameId equals the coerced value — the coercion is
applied to the match key — and the default batch size is 50 000. -/
theorem C4_direct_id_match (wps : List WpNode) (places : List PlaceNode) (e : Edge) :
    (e ∈ directIdEdges wps places ↔
      ∃ wp ∈ wps, ∃ p ∈ places, ∃ s, wp.geonamesId = some s ∧ wp.hasSameAs = false ∧
        toIntegerStr s = some p.geonameId ∧
        e = { src := wp.qid, tgtGeonameId := p.geonameId, relType := "SAME_AS",
              confidence := 1, distance_km := 0, evidence := "geonames_id_match" })
    ∧ directIdBatchSize = 50000 :=
  ⟨mem_directIdEdges wps places e, rfl⟩

unseal Rat.mul Rat.inv Rat.add Rat.sub in
/-- Claim C10: in the optimized spatial linker each batch emits at most one
edge per source; the emitted edge's target is the first (nearest, under the
sortedness the query guarantees) bounding-box candidate; and when that single
scored candidate falls below the confidence threshold no edge is emitted for
the source, regardless of the remaining candidates. -/
theorem C10_nearest_only (places : List (WdPlace × List GnCand)) (τ : ℚ)
    (wp : WdPlace) (nearby : List GnCand) (q : String) :
    ((places.map (fun p => p.1.qid)).Nodup →
      ((linkCountryBatchOptimized places τ).countP (fun r => r.wikidataQid == q)) ≤ 1)
    ∧ (∀ r, processSourceOptimized wp nearby τ = some r →
        ∃ best rest, nearby = best :: rest ∧ r.geonameId = best.geonameId ∧
          (nearby.Pairwise (fun a b => a.distance_km ≤ b.distance_km) →
            ∀ c ∈ nearby, best.distance_km ≤ c.distance_km))
    ∧ (∀ best rest, nearby = best :: rest →
        calcConfidenceOptimized wp best best.distance_km < τ →
        processSourceOptimized wp nearby τ = none) := by
  refine ⟨fun h => linkCountryBatchOptimized_countP_le_one places τ q h, ?_, ?_⟩
  · intro r hr
    obtain ⟨best, rest, heq, hτ, rfl⟩ := processSourceOptimized_eq_some wp nearby τ r hr
    refine ⟨best, rest, heq, rfl, fun hsorted c hc => ?_⟩
    rw [heq] at hsorted hc
    rcases List.mem_cons.mp hc with rfl | hc
    · exact le_refl _
    · exact (List.pairwise_cons.mp hsorted).1 c hc
  · intro best rest heq hlt
    subst heq
    simp only [processSourceOptimized]
    rw [if_neg (not_le.mpr hlt)]

unseal Rat.mul Rat.inv Rat.add Rat.sub in
/-- Witness for C10: a Paris source whose nearest candidate (the Eiffel Tower,
0.2 km, confidence 0.41) falls below the 0.7 threshold produces no edge, even
though the farther candidate (Paris, 2 km) would score 0.85 — above threshold — only the nearest
candidate is scored. -/
theorem C10_nearest_only_witness :
    processSourceOptimized ⟨"Q90", some "Paris", none⟩
        [⟨100, some "Eiffel Tower", some "S", some "TOWR", 1/5⟩,
         ⟨200, some "Paris", some "P", some "PPLC", 2⟩] (7/10) = none
    ∧ calcConfidenceOptimized ⟨"Q90", some "Paris", none⟩
        ⟨200, some "Paris", some "P", some "PPLC", 2⟩ 2 = 17/20
    ∧ ((7:ℚ)/10 ≤ 17/20)
    ∧ ((linkCountryBatchOptimized [(⟨"Q90", some "Paris", none⟩,
        [⟨100, some "Eiffel Tower", some "S", some "TOWR", 1/5⟩,
         ⟨200, some "Paris", some "P", some "PPLC", 2⟩])] (7/10)).countP
        (fun r => r.wikidataQid == "Q90")) ≤ 1 :=
  ⟨(C10_nearest_only [] (7/10) ⟨"Q90", some "Paris", none⟩
      [⟨100, some "Eiffel Tower", some "S", some "TOWR", 1/5⟩,
       ⟨200, some "Paris", some "P", some "PPLC", 2⟩] "Q90").2.2
      ⟨100, some "Eiffel Tower", some "S", some "TOWR", 1/5⟩
      [⟨200, some "Paris", some "P", some "PPLC", 2⟩] rfl (by decide),
   by decide, by decide,
   (C10_nearest_only [(⟨"Q90", some "Paris", none⟩,
      [⟨100, some "Eiffel Tower", some "S", some "TOWR", 1/5⟩,
       ⟨200, some "Paris", some "P", some "PPLC", 2⟩])] (7/10) ⟨"Q90", some "Paris", none⟩
      [] "Q90").1 (by decide)⟩


/-- Claim C5 (counterexample): on a store containing a populated place with
non-empty admin1 and admin2 codes, an ADM1 division and a matching ADM2
division, the robust builder produces the ADMIN1 place link and the PART_OF
hierarchy — but no LOCATED_IN_ADMIN2 edge, and the ADMIN3 supplement linker
produces none either, contradicting the claimed level set {1,2,3}. -/
theorem C5_no_admin2_links_counterexample :
    robustBuilderEdges ["CA"]
      [⟨1, some "CA", some "P", some "PPL", some "08", some "06", none, none⟩,
       ⟨3, some "CA", some "A", some "ADM1", some "08", none, none, none⟩,
       ⟨2, some "CA", some "A", some "ADM2", some "08", some "06", none, none⟩]
      = [.locInAdmin1 1 3, .partOfCountry 3 "CA", .partOf 2 3]
    ∧ HierEdge.locInAdmin2 1 2 ∉ robustBuilderEdges ["CA"]
      [⟨1, some "CA", some "P", some "PPL", some "08", some "06", none, none⟩,
       ⟨3, some "CA", some "A", some "ADM1", some "08", none, none, none⟩,
       ⟨2, some "CA", some "A", some "ADM2", some "08", some "06", none, none⟩]
    ∧ HierEdge.locInAdmin2 1 2 ∉ admin3LinkerEdges
      [⟨1, some "CA", some "P", some "PPL", some "08", some "06", none, none⟩,
       ⟨3, some "CA", some "A", some "ADM1", some "08", none, none, none⟩,
       ⟨2, some "CA", some "A", some "ADM2", some "08", some "06", none, none⟩] := by
  refine ⟨by decide, by decide, by decide⟩

/-- Claim C5 (amended): for countries of at most 500 000 non-admin places the
robust builder links every non-admin Place with a non-null admin1 code to each
ADM1 AdminDivision with the matching (countryCode, admin1Code) pair via
LOCATED_IN_ADMIN1; for larger countries the admin2-chunked strategy links only
those of them that also have a non-null admin2 code.  The builder creates
PART_OF edges ADM2→ADM1, ADM3→ADM2 and ADM1→Country, and the separate ADMIN3
linker adds LOCATED_IN_ADMIN3 and PART_OF ADM4→ADM3; neither of these two
scripts creates LOCATED_IN_ADMIN2 edges.  Place-level ADMIN2 links exist only
in the legacy loader, which targets the level-2 division keyed by the admin2
code alone, not the full code tuple. -/
theorem C5_hierarchy_edges (country : String) (countries : List String)
    (places : List GPlace) (admins : List AdminDiv) (pid aid : ℤ)
    (code ctry : String) :
    (HierEdge.locInAdmin1 pid aid ∈ locatedInAdmin1Edges country places admins ↔
      ∃ p ∈ places, ∃ a ∈ admins, p.geonameId = pid ∧ a.geonameId = aid ∧
        p.countryCode = some country ∧ p.admin1Code.isSome ∧
        (∃ fc, p.featureClass = some fc ∧ fc ≠ "A") ∧
        a.featureCode = some "ADM1" ∧ a.countryCode = p.countryCode ∧
        a.admin1Code = p.admin1Code)
    ∧ locatedInAdmin1EdgesUltraMega country places admins
        = locatedInAdmin1Edges country (places.filter (fun p => p.admin2Code.isSome)) admins
    ∧ (500000 < countPlacesForCountry country places →
        linkPlacesToAdmin1ForCountry country places admins
          = locatedInAdmin1EdgesUltraMega country places admins)
    ∧ (¬(500000 < countPlacesForCountry country places) →
        linkPlacesToAdmin1ForCountry country places admins
          = locatedInAdmin1Edges country places admins)
    ∧ (∀ e ∈ robustBuilderEdges countries places, ∀ x y : ℤ,
        e ≠ .locInAdmin2 x y ∧ e ≠ .locInAdmin3 x y)
    ∧ (∀ e ∈ admin3LinkerEdges places, ∀ x y : ℤ,
        e ≠ .locInAdmin1 x y ∧ e ≠ .locInAdmin2 x y)
    ∧ (LegacyAdminLink.mk pid 2 code ctry ∈ legacyCreateAdminRelationships places ↔
        ∃ p ∈ places, p.geonameId = pid ∧ p.admin2Code = some code ∧ code ≠ "" ∧
          p.countryCode = some ctry) := by
  refine ⟨?_, ?_, ?_, ?_, ?_, ?_, ?_⟩
  · simp only [locatedInAdmin1Edges, List.mem_flatMap, List.mem_map, List.mem_filter]
    constructor
    · rintro ⟨p, ⟨hp, hcond⟩, a, ⟨ha, hacond⟩, heq⟩
      obtain ⟨hpid, haid⟩ : p.geonameId = pid ∧ a.geonameId = aid := by
        cases heq
        exact ⟨rfl, rfl⟩
      simp only [Bool.and_eq_true, beq_iff_eq] at hcond hacond
      obtain ⟨⟨hcc, ha1⟩, hfc⟩ := hcond
      obtain ⟨⟨hafc, hacc⟩, haa1⟩ := hacond
      refine ⟨p, hp, a, ha, hpid, haid, hcc, by simpa using ha1, ?_, hafc, ?_, ?_⟩
      · cases hfcv : p.featureClass with
        | none => rw [hfcv] at hfc; cases hfc
        | some fc =>
            rw [hfcv] at hfc
            exact ⟨fc, rfl, by simpa [cypherNeq] using hfc⟩
      · cases hv : a.countryCode with
        | none => rw [hv] at hacc; cases hacc
        | some v =>
            rw [hv] at hacc
            cases hw : p.countryCode with
            | none => rw [hw] at hacc; cases hacc
            | some w => rw [hw] at hacc; simp [cypherEqOpt] at hacc; rw [hacc]
      · cases hv : a.admin1Code with
        | none => rw [hv] at haa1; cases haa1
        | some v =>
            rw [hv] at haa1
            cases hw : p.admin1Code with
            | none => rw [hw] at haa1; cases haa1
            | some w => rw [hw] at haa1; simp [cypherEqOpt] at haa1; rw [haa1]
    · rintro ⟨p, hp, a, ha, hpid, haid, hcc, ha1, ⟨fc, hfc, hfcne⟩, hafc, hacc, haa1⟩
      refine ⟨p, ⟨hp, ?_⟩, a, ⟨ha, ?_⟩, by rw [hpid, haid]⟩
      · simp only [Bool.and_eq_true, beq_iff_eq]
        exact ⟨⟨hcc, by simpa using ha1⟩, by simp [cypherNeq, hfc, hfcne]⟩
      · simp only [Bool.and_eq_true, beq_iff_eq]
        obtain ⟨a1v, ha1v⟩ := Option.isSome_iff_exists.mp ha1
        refine ⟨⟨hafc, ?_⟩, ?_⟩
        · rw [hacc, hcc]; simp [cypherEqOpt]
        · rw [haa1, ha1v]; simp [cypherEqOpt]
  · unfold locatedInAdmin1EdgesUltraMega locatedInAdmin1Edges
    rw [List.filter_filter]
    congr 1
    refine List.filter_congr fun p _ => ?_
    cases p.countryCode == some country <;> cases p.admin1Code.isSome <;>
      cases p.admin2Code.isSome <;> cases cypherNeq p.featureClass "A" <;> rfl
  · intro h
    unfold linkPlacesToAdmin1ForCountry
    rw [if_pos h]
  · intro h
    unfold linkPlacesToAdmin1ForCountry
    rw [if_neg h]
  · intro e he x y
    simp only [robustBuilderEdges, List.mem_append, List.mem_flatMap] at he
    rcases he with ((⟨c, -, hc⟩ | hc) | hc) | hc
    · unfold linkPlacesToAdmin1ForCountry at hc
      split at hc <;>
        [skip; skip] <;>
        · first
          | (simp only [locatedInAdmin1EdgesUltraMega, List.mem_flatMap, List.mem_map] at hc
             obtain ⟨-, -, -, -, rfl⟩ := hc
             exact ⟨by simp, by simp⟩)
          | (simp only [locatedInAdmin1Edges, List.mem_flatMap, List.mem_map] at hc
             obtain ⟨-, -, -, -, rfl⟩ := hc
             exact ⟨by simp, by simp⟩)
    · simp only [partOfCountryEdges, List.mem_map] at hc
      obtain ⟨-, -, rfl⟩ := hc
      exact ⟨by simp, by simp⟩
    · simp only [partOfAdmin2Edges, List.mem_flatMap, List.mem_map] at hc
      obtain ⟨-, -, -, -, rfl⟩ := hc
      exact ⟨by simp, by simp⟩
    · simp only [partOfAdmin3Edges, List.mem_flatMap, List.mem_map] at hc
      obtain ⟨-, -, -, -, rfl⟩ := hc
      exact ⟨by simp, by simp⟩
  · intro e he x y
    simp only [admin3LinkerEdges, List.mem_append] at he
    rcases he with hc | hc
    · simp only [locatedInAdmin3Edges, List.mem_flatMap, List.mem_map] at hc
      obtain ⟨-, -, -, -, rfl⟩ := hc
      exact ⟨by simp, by simp⟩
    · simp only [partOfAdmin4Edges, List.mem_flatMap, List.mem_map] at hc
      obtain ⟨-, -, -, -, rfl⟩ := hc
      exact ⟨by simp, by simp⟩
  · simp only [legacyCreateAdminRelationships, List.mem_append, List.mem_map, List.mem_filter]
    constructor
    · rintro (⟨p, ⟨hp, hcond⟩, heq⟩ | ⟨p, ⟨hp, hcond⟩, heq⟩)
      · cases heq
      · simp only [Bool.and_eq_true] at hcond
        obtain ⟨h2, hcs⟩ := hcond
        obtain ⟨cv, hcv⟩ := Option.isSome_iff_exists.mp hcs
        cases ha2 : p.admin2Code with
        | none => rw [ha2] at h2; cases h2
        | some a2v =>
            rw [ha2] at h2
            have ha2ne : a2v ≠ "" := by simpa [cypherNeq] using h2
            obtain ⟨hpid, hcode, hctry⟩ : p.geonameId = pid ∧ a2v = code ∧ cv = ctry := by
              cases heq
              rw [ha2, hcv]
              exact ⟨rfl, rfl, rfl⟩
            exact ⟨p, hp, hpid, by rw [ha2, hcode], by rw [← hcode]; exact ha2ne,
                   by rw [hcv, hctry]⟩
    · rintro ⟨p, hp, hpid, ha2, hne, hcc⟩
      refine Or.inr ⟨p, ⟨hp, ?_⟩, ?_⟩
      · simp only [Bool.and_eq_true]
        exact ⟨by simp [cypherNeq, ha2, hne], by simp [hcc]⟩
      · rw [hpid, ha2, hcc]
        rfl

/-- Witness for C5: the ADMIN1 edge of the counterexample store satisfies the
characterisation, the small store takes the normal strategy, the membership
bound instantiates on a PART_OF edge, and the legacy loader's level-2 link for
the same place is inhabited. -/
theorem C5_hierarchy_edges_witness :
    (HierEdge.locInAdmin1 1 3 ∈ locatedInAdmin1Edges "CA"
      [⟨1, some "CA", some "P", some "PPL", some "08", some "06", none, none⟩]
      [⟨3, some "CA", some "ADM1", some "08", none, none, none⟩] ↔
      ∃ p ∈ [(⟨1, some "CA", some "P", some "PPL", some "08", some "06", none, none⟩ : GPlace)],
        ∃ a ∈ [(⟨3, some "CA", some "ADM1", some "08", none, none, none⟩ : AdminDiv)],
          p.geonameId = 1 ∧ a.geonameId = 3 ∧
          p.countryCode = some "CA" ∧ p.admin1Code.isSome ∧
          (∃ fc, p.featureClass = some fc ∧ fc ≠ "A") ∧
          a.featureCode = some "ADM1" ∧ a.countryCode = p.countryCode ∧
          a.admin1Code = p.admin1Code)
    ∧ linkPlacesToAdmin1ForCountry "CA"
        [⟨1, some "CA", some "P", some "PPL", some "08", some "06", none, none⟩]
        [⟨3, some "CA", some "ADM1", some "08", none, none, none⟩]
        = locatedInAdmin1Edges "CA"
            [⟨1, some "CA", some "P", some "PPL", some "08", some "06", none, none⟩]
            [⟨3, some "CA", some "ADM1", some "08", none, none, none⟩]
    ∧ (∀ x y : ℤ, HierEdge.partOfCountry 3 "CA" ≠ .locInAdmin2 x y)
    ∧ LegacyAdminLink.mk 1 2 "06" "CA" ∈ legacyCreateAdminRelationships
        [⟨1, some "CA", some "P", some "PPL", some "08", some "06", none, none⟩] :=
  ⟨(C5_hierarchy_edges "CA" ["CA"]
      [⟨1, some "CA", some "P", some "PPL", some "08", some "06", none, none⟩]
      [⟨3, some "CA", some "ADM1", some "08", none, none, none⟩] 1 3 "06" "CA").1,
   (C5_hierarchy_edges "CA" ["CA"]
      [⟨1, some "CA", some "P", some "PPL", some "08", some "06", none, none⟩]
      [⟨3, some "CA", some "ADM1", some "08", none, none, none⟩] 1 3 "06" "CA").2.2.2.1
      (by decide),
   fun x y =>
     ((C5_hierarchy_edges "CA" ["CA"]
        [⟨3, some "CA", some "A", some "ADM1", some "08", none, none, none⟩]
        [] 1 3 "06" "CA").2.2.2.2.1 (HierEdge.partOfCountry 3 "CA") (by decide) x y).1,
   (C5_hierarchy_edges "CA" ["CA"]
      [⟨1, some "CA", some "P", some "PPL", some "08", some "06", none, none⟩]
      [] 1 3 "06" "CA").2.2.2.2.2.2.mpr
      ⟨⟨1, some "CA", some "P", some "PPL", some "08", some "06", none, none⟩,
        by decide, rfl, rfl, by decide, rfl⟩⟩


end GeoKG
